import Mathlib

/-!
Verification development for the resumebuilder repository.

The frontend (Next.js/TypeScript) is embedded directly from the source files
under `Frontend`: `page.tsx` (the `Home` component's state and handlers),
`CollapsibleChatbot`/`Chatbot` (the chat input submit handler) and
`ChatHistory` (session management).  The backend document store, context
assembler and compactor live in the repository's `backend/` directory, which
is not part of the visible sources; those parts are modelled from the spec
under `Store` and marked as such in their doc comments.

Timestamps (`Date` values in TypeScript, ISO strings over the API) do not
affect any property proved here; they are represented as plain values
(`Nat` for `Date`, `String` where the API carries strings) and never
inspected.
-/

namespace Frontend

/-- Chat message as declared in `page.tsx` / `CollapsibleChatbot.tsx`:
`type` is the union `'user' | 'bot'`. The optional timestamp is carried as a
`Nat` stand-in for `Date` and never inspected by any handler. -/
inductive MsgType
  | user
  | bot
deriving DecidableEq, Repr

structure ChatMessage where
  type : MsgType
  message : String
  timestamp : Option Nat := none
deriving DecidableEq, Repr

/-- Experience entry from the `ResumeData` interface in `page.tsx`. -/
structure ExperienceEntry where
  company : String
  position : String
  duration : String
  description : String
deriving DecidableEq, Repr

/-- Skills from the `ResumeData` interface in `page.tsx`. -/
structure Skills where
  technical : List String
  soft : List String
deriving DecidableEq, Repr

/-- Education entry from the `ResumeData` interface in `page.tsx`. -/
structure EducationEntry where
  institution : String
  degree : String
  year : String
  gpa : Option String := none
deriving DecidableEq, Repr

/-- Personal-info header from the `ResumeData` interface in `page.tsx`. -/
structure PersonalInfo where
  name : String
  title : String
  email : String
  phone : String
  location : String
  linkedin : String
  website : String
deriving DecidableEq, Repr

/-- The `ResumeData` interface in `page.tsx` / `Resume.tsx`. -/
structure ResumeData where
  personalInfo : PersonalInfo
  summary : String
  experience : List ExperienceEntry
  skills : Skills
  education : List EducationEntry
deriving DecidableEq, Repr

/-- The TypeScript `Partial<ResumeData>`: each top-level key may be absent (`none`). -/
structure ResumeDataPartial where
  personalInfo : Option PersonalInfo := none
  summary : Option String := none
  experience : Option (List ExperienceEntry) := none
  skills : Option Skills := none
  education : Option (List EducationEntry) := none
deriving DecidableEq, Repr

/-- The theme union (light | dark) from the `ProfileData` interface. -/
inductive Theme
  | light
  | dark
deriving DecidableEq, Repr

/-- The plan union (free | pro | premium) from the `ProfileData` interface. -/
inductive Plan
  | free
  | pro
  | premium
deriving DecidableEq, Repr

structure Preferences where
  theme : Theme
  notifications : Bool
  autoSave : Bool
deriving DecidableEq, Repr

structure Subscription where
  plan : Plan
  expiresAt : Option Nat := none
deriving DecidableEq, Repr

structure Stats where
  resumesCreated : Nat
  profileViews : Nat
  downloadsThisMonth : Nat
  lastActive : Nat
deriving DecidableEq, Repr

/-- The `ProfileData` interface in `page.tsx` / `ProfileSidebar.tsx`.
Optional (`?:`) fields are `Option`s. -/
structure ProfileData where
  id : String
  name : String
  title : String
  email : String
  phone : String
  location : String
  linkedin : Option String := none
  website : Option String := none
  avatar : Option String := none
  bio : Option String := none
  preferences : Preferences
  subscription : Subscription
  stats : Stats
deriving DecidableEq, Repr

/-- The TypeScript `Partial<ProfileData>`: each top-level key may be absent (outer `none`);
for fields that are themselves optional in `ProfileData`, a present key
carries an `Option String` value, exactly as a present `linkedin:` key in a
TypeScript partial may carry `undefined`. -/
structure ProfileDataPartial where
  id : Option String := none
  name : Option String := none
  title : Option String := none
  email : Option String := none
  phone : Option String := none
  location : Option String := none
  linkedin : Option (Option String) := none
  website : Option (Option String) := none
  avatar : Option (Option String) := none
  bio : Option (Option String) := none
  preferences : Option Preferences := none
  subscription : Option Subscription := none
  stats : Option Stats := none
deriving DecidableEq, Repr

/-- The `Home` component state in `page.tsx` that the chat handler touches:
the `messages`, `profileData` and `resumeData` `useState` cells. -/
structure PageState where
  messages : List ChatMessage
  profileData : ProfileData
  resumeData : ResumeData
deriving DecidableEq, Repr

/-- Outcome of the `fetch('http://localhost:8000/chat', ...)` call in
`handleSendMessage` (`page.tsx`): either the request itself threw
(network error / rejected promise), or it produced an HTTP response with an
`ok` flag and, when parsed, the `data.response` text. -/
inductive FetchResult
  | networkError
  | httpResponse (ok : Bool) (responseText : String)
deriving DecidableEq, Repr

/-- The fallback bot text from the `catch` branch of `handleSendMessage`
(`page.tsx` lines 195-199). -/
def fallbackText : String :=
  "I'm sorry, I'm having trouble connecting to the chat service right now. Please try again later."

/-- A `FetchResult` that takes the `catch` branch: either the fetch threw, or
`!response.ok` made line 179 throw into the same `catch`. -/
def isFailure : FetchResult → Bool
  | .networkError => true
  | .httpResponse ok _ => !ok

/-- The handler `handleSendMessage` from `page.tsx` lines 152-203, as a state
transformer.  It first appends the user message (line 159); on a successful
fetch with `response.ok` it appends the bot message built from
`data.response` (lines 184-190); a thrown fetch or a non-ok status lands in
`catch` and appends the fallback bot message (lines 191-202).  Neither
branch touches `resumeData` or `profileData`. -/
def handleSendMessage (st : PageState) (message : String) (t : Nat)
    (r : FetchResult) : PageState :=
  let newMessage : ChatMessage := { type := .user, message := message, timestamp := some t }
  let st1 := { st with messages := st.messages ++ [newMessage] }
  match r with
  | .httpResponse true responseText =>
      let botResponse : ChatMessage :=
        { type := .bot, message := responseText, timestamp := some t }
      { st1 with messages := st1.messages ++ [botResponse] }
  | .httpResponse false _ =>
      let fallbackResponse : ChatMessage :=
        { type := .bot, message := fallbackText, timestamp := some t }
      { st1 with messages := st1.messages ++ [fallbackResponse] }
  | .networkError =>
      let fallbackResponse : ChatMessage :=
        { type := .bot, message := fallbackText, timestamp := some t }
      { st1 with messages := st1.messages ++ [fallbackResponse] }

/-- The handler `handleResumeUpdate` from `page.tsx` lines 221-226:
`setResumeData(prev => ({ ...prev, ...newData }))` — object spread replaces
exactly the top-level keys present in `newData`. -/
def handleResumeUpdate (prev : ResumeData) (newData : ResumeDataPartial) : ResumeData :=
  { personalInfo := newData.personalInfo.getD prev.personalInfo
    summary := newData.summary.getD prev.summary
    experience := newData.experience.getD prev.experience
    skills := newData.skills.getD prev.skills
    education := newData.education.getD prev.education }

/-- The handler `handleProfileUpdate` from `page.tsx` lines 228-233:
`setProfileData(prev => ({ ...prev, ...data }))`. -/
def handleProfileUpdate (prev : ProfileData) (data : ProfileDataPartial) : ProfileData :=
  { id := data.id.getD prev.id
    name := data.name.getD prev.name
    title := data.title.getD prev.title
    email := data.email.getD prev.email
    phone := data.phone.getD prev.phone
    location := data.location.getD prev.location
    linkedin := data.linkedin.getD prev.linkedin
    website := data.website.getD prev.website
    avatar := data.avatar.getD prev.avatar
    bio := data.bio.getD prev.bio
    preferences := data.preferences.getD prev.preferences
    subscription := data.subscription.getD prev.subscription
    stats := data.stats.getD prev.stats }

/-- JavaScript `String.prototype.trim`: strip whitespace from both ends of
the string, character-wise. -/
def jsTrim (s : String) : String :=
  ⟨((s.data.dropWhile Char.isWhitespace).reverse.dropWhile Char.isWhitespace).reverse⟩

/-- The chat input submit handler, identical in `CollapsibleChatbot.tsx`
(lines 39-54) and `Chatbot.tsx` (lines 31-46): if the trimmed input is empty
(falsy) it returns early (no `onSendMessage` call, input field untouched);
otherwise it clears the input field and calls `onSendMessage` once with the
trimmed text.  The first component of the result is the at-most-one
`onSendMessage` argument, the second the new input-field value. -/
def handleChatSubmit (inputMessage : String) : Option String × String :=
  if jsTrim inputMessage = "" then (none, inputMessage)
  else (some (jsTrim inputMessage), "")

/-- Session as declared in the `ChatHistory` component (`Resume.tsx` lines
196-203); `created_at` / `last_activity` are the ISO strings the API sends. -/
structure Session where
  session_id : String
  title : String
  message_count : Nat
  created_at : String
  last_activity : String
  is_active : Bool
deriving DecidableEq, Repr

/-- History message as declared in the `ChatHistory` component (`Resume.tsx`
lines 205-211): note `type` is declared as the union `'user' | 'bot'`, but
it arrives from the API as a plain string, so it is embedded as `String` in
order to express both the declared invariant and the rendering test. -/
structure HistoryMessage where
  id : String
  type : String
  message : String
  timestamp : String
deriving DecidableEq, Repr

/-- The declared type of a chat message role: the `'user' | 'bot'` union
from the `Message` interfaces (`CollapsibleChatbot.tsx` lines 5-9,
`page.tsx` lines 8-12, `ChatHistory` in `Resume.tsx` lines 205-211). -/
def roleDeclared (t : String) : Prop :=
  t = "user" ∨ t = "bot"

instance (t : String) : Decidable (roleDeclared t) := by
  unfold roleDeclared; infer_instance

/-- The role test `msg.type === 'user'` used by `CollapsibleChatbot.tsx`
(line 142) and `Chatbot.tsx` (line 61) to right-align a user message. -/
def collapsibleIsUserAligned (t : String) : Bool :=
  t == "user"

/-- The role test `message.type === 'human'` used by the `ChatHistory`
session-view renderer (`Resume.tsx` lines 471 and 475) to right-align a
user message. -/
def chatHistoryIsUserAligned (t : String) : Bool :=
  t == "human"

/-- The `ChatHistory` component state touched by `deleteSession`
(`Resume.tsx`): the `sessions`, `selectedSession`, `sessionMessages` and
`showDeleteConfirm` `useState` cells. -/
structure ChatHistoryState where
  sessions : List Session
  selectedSession : Option Session := none
  sessionMessages : List HistoryMessage := []
  showDeleteConfirm : Option String := none
deriving DecidableEq, Repr

/-- The handler `deleteSession` from `ChatHistory` (`Resume.tsx` lines 280-297), as a
state transformer over the outcome of the DELETE request: when
`response.ok`, it filters the deleted id out of `sessions`, clears the
selection and its loaded messages when the deleted session was selected,
and dismisses the confirmation dialog; when the request fails or throws,
no state is changed. -/
def deleteSession (st : ChatHistoryState) (sessionId : String)
    (responseOk : Bool) : ChatHistoryState :=
  if responseOk then
    let st1 := { st with sessions := st.sessions.filter (fun s => s.session_id ≠ sessionId) }
    let st2 :=
      match st.selectedSession with
      | some s =>
          if s.session_id = sessionId then
            { st1 with selectedSession := none, sessionMessages := [] }
          else st1
      | none => st1
    { st2 with showDeleteConfirm := none }
  else st

end Frontend

namespace Store

/-- Modelled from the spec: experience entry of the backend `Document`
(§3), keyed by entry identity (company, position) per §4.2; the backend
source (`backend/app/...`) is not among the visible files. -/
structure ExperienceEntry where
  company : String
  position : String
  duration : String
  description : String
deriving DecidableEq, Repr

/-- Modelled from the spec: the two disjoint skill sets of §3. -/
structure Skills where
  technical : List String
  soft : List String
deriving DecidableEq, Repr

/-- Modelled from the spec: the versioned résumé `Document` of §3 (identity
header and education are irrelevant to the claims settled here and carried
as-is); the backend source is not among the visible files. -/
structure Document where
  version : Nat
  summary : String
  experience : List ExperienceEntry
  skills : Skills
deriving DecidableEq, Repr

/-- Modelled from the spec: the `EditRecord` ledger entry of §3 — version
before and after, operation name, actor, timestamp. -/
structure EditRecord where
  versionBefore : Nat
  versionAfter : Nat
  operation : String
  actor : String
  timestamp : Nat
deriving DecidableEq, Repr

/-- Modelled from the spec: the Document Store's persistent state — at most
one current document per user plus its append-only ledger (§3, §4.1). -/
structure DocStore where
  doc : Option Document
  ledger : List EditRecord
deriving DecidableEq, Repr

/-- Modelled from the spec: the error taxonomy of §7 restricted to the
Document Store contract of §4.1. -/
inductive StoreError
  | NotFound
  | VersionConflict
  | ValidationError
deriving DecidableEq, Repr

/-- Skill category selector (`technical` / `soft`), §4.2. -/
inductive SkillCategory
  | technical
  | soft
deriving DecidableEq, Repr

/-- Character-wise lowercasing, used for the case-insensitive comparisons
of §4.2. -/
def lowerStr (s : String) : String :=
  ⟨s.data.map Char.toLower⟩

/-- Collapse interior whitespace runs to single spaces and drop trailing
whitespace; `pending` records whether a separating space is owed before the
next word character. -/
def collapseWs : List Char → Bool → List Char
  | [], _ => []
  | c :: rest, pending =>
    if c.isWhitespace then collapseWs rest true
    else (if pending then [' ', c] else [c]) ++ collapseWs rest false

/-- Modelled from the spec (§4.2): skill name normalization — trim, collapse
whitespace, case-preserving. -/
def normalizeSkill (s : String) : String :=
  ⟨collapseWs (s.data.dropWhile Char.isWhitespace) false⟩

def getSkills (d : Document) : SkillCategory → List String
  | .technical => d.skills.technical
  | .soft => d.skills.soft

def setSkills (d : Document) (cat : SkillCategory) (l : List String) : Document :=
  match cat with
  | .technical => { d with skills := { d.skills with technical := l } }
  | .soft => { d with skills := { d.skills with soft := l } }

/-- Modelled from the spec: the mutating operations of the Operation
Catalog (§4.2) needed by the claims — summary replace, skills add/remove,
experience remove keyed by entry identity. -/
inductive Operation
  | replaceSummary (text : String)
  | skillsAdd (cat : SkillCategory) (name : String)
  | skillsRemove (cat : SkillCategory) (name : String)
  | experienceRemove (company : String) (position : String)
deriving DecidableEq, Repr

def opName : Operation → String
  | .replaceSummary _ => "edit_professional_summary"
  | .skillsAdd _ _ => "skills_add"
  | .skillsRemove _ _ => "skills_remove"
  | .experienceRemove _ _ => "experience_remove"

/-- Modelled from the spec (§4.1, §4.2): operation validation and document
transformation, `none` meaning `ValidationError` — empty required text,
duplicate skill insertion (case-insensitive on the normalized name),
removing a skill or an experience entry that does not exist. -/
def applyOp (d : Document) : Operation → Option Document
  | .replaceSummary text =>
      if text = "" then none else some { d with summary := text }
  | .skillsAdd cat name =>
      let n := normalizeSkill name
      if n = "" then none
      else
        let cur := getSkills d cat
        if cur.any (fun x => lowerStr x == lowerStr n) then none
        else some (setSkills d cat (cur ++ [n]))
  | .skillsRemove cat name =>
      let n := normalizeSkill name
      let cur := getSkills d cat
      if cur.any (fun x => lowerStr x == lowerStr n) then
        some (setSkills d cat (cur.filter (fun x => lowerStr x ≠ lowerStr n)))
      else none
  | .experienceRemove company position =>
      if d.experience.any (fun e => e.company == company && e.position == position) then
        some { d with experience :=
          d.experience.filter (fun e => ¬(e.company = company ∧ e.position = position)) }
      else none

/-- Modelled from the spec: `applyMutation(userId, expectedVersion,
operation, params)` of §4.1 — atomic compare-and-set.  The result pairs the
post-call store state with the outcome, so one call is one state
transition: `NotFound` when no document exists, `VersionConflict` when
`expectedVersion` differs from the stored version, `ValidationError` when
the params violate the operation's schema (each leaving the store
untouched); on success, the new document with version `expectedVersion + 1`
and exactly one appended `EditRecord` are persisted in the same
transition. -/
def applyMutation (st : DocStore) (expectedVersion : Nat) (op : Operation)
    (actor : String) (now : Nat) :
    DocStore × Except StoreError (Document × EditRecord) :=
  match st.doc with
  | none => (st, .error .NotFound)
  | some d =>
      if expectedVersion = d.version then
        match applyOp d op with
        | none => (st, .error .ValidationError)
        | some d1 =>
            let newDocument := { d1 with version := expectedVersion + 1 }
            let record : EditRecord :=
              { versionBefore := expectedVersion
                versionAfter := expectedVersion + 1
                operation := opName op
                actor := actor
                timestamp := now }
            ({ doc := some newDocument, ledger := st.ledger ++ [record] },
              .ok (newDocument, record))
      else (st, .error .VersionConflict)

/-- Count of the entries of a stored skill list matching `name` up to
case-insensitive comparison of the normalized name (§4.2). -/
def countMatching (l : List String) (name : String) : Nat :=
  l.countP (fun x => lowerStr x == lowerStr (normalizeSkill name))

/-- Modelled from the spec (§4.3, §4.4): compaction threshold and
recent-window size of the Context Assembler / Conversation Compactor; the
backend `context_manager.py` is not among the visible files. -/
structure CompactionConfig where
  threshold : Nat
  window : Nat
deriving DecidableEq, Repr

/-- Modelled from the spec: a stored Message row (§3) as the Context
Assembler sees it. -/
structure StoredMessage where
  role : String
  content : String
  timestamp : Nat
deriving DecidableEq, Repr

/-- Modelled from the spec (§4.3): one element of the bounded message list
handed to the model — the fixed system preamble, the document outline, the
at-most-one synthetic summary, or one raw recent message. -/
inductive CtxItem
  | preamble (text : String)
  | outline (text : String)
  | summary (text : String)
  | raw (m : StoredMessage)
deriving DecidableEq, Repr

def isRaw : CtxItem → Bool
  | .raw _ => true
  | _ => false

def isSummary : CtxItem → Bool
  | .summary _ => true
  | _ => false

/-- Modelled from the spec (§4.4): a deterministic synopsis of the excluded
older messages — deterministic given the same input window. -/
def summarize (msgs : List StoredMessage) : String :=
  String.intercalate "; " (msgs.map (fun m => m.content))

/-- Modelled from the spec (§4.3, §4.4): context assembly for one turn —
always the preamble and the outline; when the stored message count exceeds
the compaction threshold, one synthetic summary of the older messages plus
the last `window` raw messages, otherwise all raw messages. -/
def assembleContext (cfg : CompactionConfig) (preambleText outlineText : String)
    (msgs : List StoredMessage) : List CtxItem :=
  if cfg.threshold < msgs.length then
    let old := msgs.take (msgs.length - cfg.window)
    let recent := msgs.drop (msgs.length - cfg.window)
    [.preamble preambleText, .outline outlineText, .summary (summarize old)]
      ++ recent.map .raw
  else
    [.preamble preambleText, .outline outlineText] ++ msgs.map .raw

/-- Modelled from the spec (§4.4): assembling a turn's context reads the
session's durable message log and returns it untouched — summarization
affects only what is included in the prompt, never the stored rows.  The
second component is the Session Store's message log after assembly. -/
def assembleTurnContext (cfg : CompactionConfig) (preambleText outlineText : String)
    (stored : List StoredMessage) : List CtxItem × List StoredMessage :=
  (assembleContext cfg preambleText outlineText stored, stored)

end Store

/-! Concrete sample values used by the witness theorems. -/

def sampleDoc : Store.Document :=
  { version := 3
    summary := "Experienced engineer."
    experience := [{ company := "Tech Corp", position := "Senior Software Engineer",
                     duration := "2021 - Present", description := "Lead development." }]
    skills := { technical := ["TypeScript"], soft := ["Leadership"] } }

def sampleStore : Store.DocStore :=
  { doc := some sampleDoc, ledger := [] }

def emptySkillsDoc : Store.Document :=
  { version := 0, summary := "s", experience := [], skills := { technical := [], soft := [] } }

def emptySkillsStore : Store.DocStore :=
  { doc := some emptySkillsDoc, ledger := [] }

def sampleMsgs : List Store.StoredMessage :=
  [{ role := "user", content := "m1", timestamp := 1 },
   { role := "assistant", content := "m2", timestamp := 2 },
   { role := "user", content := "m3", timestamp := 3 },
   { role := "assistant", content := "m4", timestamp := 4 }]

def sampleProfile : Frontend.ProfileData :=
  { id := "profile-1", name := "John Doe", title := "Senior Software Engineer"
    email := "john.doe@email.com", phone := "(555) 123-4567"
    location := "San Francisco, CA"
    linkedin := some "linkedin.com/in/johndoe", website := some "johndoe.dev"
    bio := some "Passionate software engineer."
    preferences := { theme := .light, notifications := true, autoSave := true }
    subscription := { plan := .pro, expiresAt := some 1735603200 }
    stats := { resumesCreated := 3, profileViews := 247, downloadsThisMonth := 12,
               lastActive := 0 } }

def sampleResume : Frontend.ResumeData :=
  { personalInfo := { name := "John Doe", title := "Senior Software Engineer"
                      email := "john.doe@email.com", phone := "(555) 123-4567"
                      location := "San Francisco, CA"
                      linkedin := "linkedin.com/in/johndoe", website := "johndoe.dev" }
    summary := "Experienced software engineer."
    experience := [{ company := "Tech Corp", position := "Senior Software Engineer",
                     duration := "2021 - Present", description := "Lead development." }]
    skills := { technical := ["JavaScript", "TypeScript"], soft := ["Leadership"] }
    education := [{ institution := "UC Berkeley", degree := "BS CS", year := "2017",
                    gpa := some "3.8" }] }

def samplePageState : Frontend.PageState :=
  { messages := [{ type := .bot, message := "Hello!", timestamp := some 0 }]
    profileData := sampleProfile
    resumeData := sampleResume }

def sampleSessionA : Frontend.Session :=
  { session_id := "sess-a", title := "Improve summary", message_count := 4
    created_at := "2025-01-01T10:00:00Z", last_activity := "2025-01-01T10:05:00Z"
    is_active := true }

def sampleSessionB : Frontend.Session :=
  { session_id := "sess-b", title := "Add skills", message_count := 2
    created_at := "2025-01-02T10:00:00Z", last_activity := "2025-01-02T10:05:00Z"
    is_active := false }

def sampleHistoryState : Frontend.ChatHistoryState :=
  { sessions := [sampleSessionA, sampleSessionB]
    selectedSession := some sampleSessionA
    sessionMessages := [{ id := "m1", type := "user", message := "hi",
                          timestamp := "2025-01-01T10:00:00Z" }]
    showDeleteConfirm := some "sess-a" }

/-- C5: every call of the frontend send-message handler appends exactly two
messages to the conversation state, in order: first exactly one user message
carrying the submitted text, then exactly one bot message — in the
successful-API branch and in the failure branch alike; no other message is
added and the previous messages are untouched. -/
theorem handleSendMessage_appends_user_then_bot
    (st : Frontend.PageState) (text : String) (t : Nat)
    (r : Frontend.FetchResult) :
    ∃ b : Frontend.ChatMessage, b.type = .bot ∧
      (Frontend.handleSendMessage st text t r).messages =
        st.messages ++
          [{ type := .user, message := text, timestamp := some t }, b] := by
  cases r with
  | networkError =>
      exact ⟨{ type := .bot, message := Frontend.fallbackText, timestamp := some t },
        rfl, by simp [Frontend.handleSendMessage]⟩
  | httpResponse ok body =>
      cases ok with
      | false =>
          exact ⟨{ type := .bot, message := Frontend.fallbackText, timestamp := some t },
            rfl, by simp [Frontend.handleSendMessage]⟩
      | true =>
          exact ⟨{ type := .bot, message := body, timestamp := some t },
            rfl, by simp [Frontend.handleSendMessage]⟩

/-- C6: whenever the model-capability call fails (network error or non-OK
HTTP status), `handleSendMessage` appends the polite fallback apology as
the turn's bot message and leaves `resumeData` (and `profileData`)
completely unchanged. -/
theorem handleSendMessage_failure_keeps_resume
    (st : Frontend.PageState) (text : String) (t : Nat)
    (r : Frontend.FetchResult) (hfail : Frontend.isFailure r = true) :
    (Frontend.handleSendMessage st text t r).resumeData = st.resumeData ∧
    (Frontend.handleSendMessage st text t r).profileData = st.profileData ∧
    (Frontend.handleSendMessage st text t r).messages =
      st.messages ++
        [{ type := .user, message := text, timestamp := some t },
         { type := .bot, message := Frontend.fallbackText, timestamp := some t }] := by
  cases r with
  | networkError =>
      exact ⟨rfl, rfl, by simp [Frontend.handleSendMessage]⟩
  | httpResponse ok body =>
      cases ok with
      | false => exact ⟨rfl, rfl, by simp [Frontend.handleSendMessage]⟩
      | true => simp [Frontend.isFailure] at hfail

/-- Witness for C6 at a concrete state and a concrete network failure. -/
theorem handleSendMessage_failure_keeps_resume_witness :
    (Frontend.handleSendMessage samplePageState "add Python" 7 .networkError).resumeData
        = samplePageState.resumeData ∧
    (Frontend.handleSendMessage samplePageState "add Python" 7 .networkError).profileData
        = samplePageState.profileData ∧
    (Frontend.handleSendMessage samplePageState "add Python" 7 .networkError).messages =
      samplePageState.messages ++
        [{ type := .user, message := "add Python", timestamp := some 7 },
         { type := .bot, message := Frontend.fallbackText, timestamp := some 7 }] :=
  handleSendMessage_failure_keeps_resume samplePageState "add Python" 7 .networkError rfl

/-- C8: the `ChatHistory` session-view renderer decides message alignment by
`message.type === 'human'`, a value outside the declared `'user' | 'bot'`
role union — the test is false on both declared role values (so a user
message renders with the bot alignment), while the sibling
`CollapsibleChatbot` renderer correctly tests `'user'`. -/
theorem chatHistory_role_test_misses_user :
    Frontend.chatHistoryIsUserAligned "user" = false ∧
    Frontend.chatHistoryIsUserAligned "bot" = false ∧
    Frontend.collapsibleIsUserAligned "user" = true ∧
    ¬ Frontend.roleDeclared "human" := by
  refine ⟨rfl, rfl, rfl, ?_⟩
  decide

/-- C9: submitting the chat input with a trimmed-empty string calls
`onSendMessage` zero times and leaves the input field unchanged; with a
trimmed-nonempty string it calls `onSendMessage` exactly once with the
trimmed text and clears the input field. -/
theorem handleChatSubmit_trim_behavior (s : String) :
    (Frontend.jsTrim s = "" → Frontend.handleChatSubmit s = (none, s)) ∧
    (Frontend.jsTrim s ≠ "" → Frontend.handleChatSubmit s = (some (Frontend.jsTrim s), "")) := by
  refine ⟨fun h => ?_, fun h => ?_⟩ <;> simp [Frontend.handleChatSubmit, h]

/-- Witness for C9 on a padded non-empty input and a whitespace-only
input. -/
theorem handleChatSubmit_trim_behavior_witness :
    Frontend.handleChatSubmit "  add Python  " = (some "add Python", "") ∧
    Frontend.handleChatSubmit "   " = (none, "   ") := by
  have h1 := (handleChatSubmit_trim_behavior "  add Python  ").2 (by decide)
  have h2 := (handleChatSubmit_trim_behavior "   ").1 (by decide)
  have htrim : Frontend.jsTrim "  add Python  " = "add Python" := by decide
  rw [htrim] at h1
  exact ⟨h1, h2⟩

/-- C7: after a successful `deleteSession S`, the session list is the
previous list minus exactly the entries whose id is `S` — nothing with id
`S` remains, every other entry survives unchanged and in order (the result
is a sublist of the previous list), and nothing is added; if `S` was the
currently selected session, the selection and its loaded messages are
cleared, while a different selection is untouched. -/
theorem deleteSession_removes_exactly_target
    (st : Frontend.ChatHistoryState) (sid : String) :
    (∀ s ∈ (Frontend.deleteSession st sid true).sessions, s.session_id ≠ sid) ∧
    List.Sublist (Frontend.deleteSession st sid true).sessions st.sessions ∧
    (∀ s ∈ st.sessions, s.session_id ≠ sid →
        s ∈ (Frontend.deleteSession st sid true).sessions) ∧
    (∀ s, st.selectedSession = some s → s.session_id = sid →
        (Frontend.deleteSession st sid true).selectedSession = none ∧
        (Frontend.deleteSession st sid true).sessionMessages = []) ∧
    (∀ s, st.selectedSession = some s → s.session_id ≠ sid →
        (Frontend.deleteSession st sid true).selectedSession = st.selectedSession ∧
        (Frontend.deleteSession st sid true).sessionMessages = st.sessionMessages) := by
  have hsess : (Frontend.deleteSession st sid true).sessions =
      st.sessions.filter (fun s => s.session_id ≠ sid) := by
    unfold Frontend.deleteSession
    cases h : st.selectedSession with
    | none => simp
    | some s =>
        by_cases hid : s.session_id = sid <;> simp [hid]
  refine ⟨?_, ?_, ?_, ?_, ?_⟩
  · intro s hs
    rw [hsess] at hs
    exact of_decide_eq_true (List.mem_filter.mp hs).2
  · rw [hsess]; exact List.filter_sublist _
  · intro s hs hne
    rw [hsess]
    exact List.mem_filter.mpr ⟨hs, decide_eq_true hne⟩
  · intro s hsel hid
    unfold Frontend.deleteSession
    rw [hsel]
    simp [hid]
  · intro s hsel hid
    unfold Frontend.deleteSession
    rw [hsel]
    simp [hid, hsel]

/-- Witness for C7: deleting the selected session `sess-a` from a concrete
two-session state keeps `sess-b` untouched, drops `sess-a`, and clears the
selection and its loaded messages. -/
theorem deleteSession_removes_exactly_target_witness :
    (Frontend.deleteSession sampleHistoryState "sess-a" true).sessions = [sampleSessionB] ∧
    sampleSessionB ∈ (Frontend.deleteSession sampleHistoryState "sess-a" true).sessions ∧
    (Frontend.deleteSession sampleHistoryState "sess-a" true).selectedSession = none ∧
    (Frontend.deleteSession sampleHistoryState "sess-a" true).sessionMessages = [] := by
  have h := deleteSession_removes_exactly_target sampleHistoryState "sess-a"
  have hmem := h.2.2.1 sampleSessionB (by decide) (by decide)
  have hsel := h.2.2.2.1 sampleSessionA rfl rfl
  exact ⟨by decide, hmem, hsel.1, hsel.2⟩

/-- C10: `handleResumeUpdate` replaces exactly the top-level `ResumeData`
fields present in the partial-update object and leaves every other
top-level field unchanged; an empty partial is the identity.  The same
holds for `handleProfileUpdate` on `ProfileData`. -/
theorem handleUpdates_replace_exactly_present_fields
    (prev : Frontend.ResumeData) (p : Frontend.ResumeDataPartial)
    (prevP : Frontend.ProfileData) (q : Frontend.ProfileDataPartial) :
    (Frontend.handleResumeUpdate prev {} = prev) ∧
    (Frontend.handleProfileUpdate prevP {} = prevP) ∧
    ((Frontend.handleResumeUpdate prev p).personalInfo =
        match p.personalInfo with | some v => v | none => prev.personalInfo) ∧
    ((Frontend.handleResumeUpdate prev p).summary =
        match p.summary with | some v => v | none => prev.summary) ∧
    ((Frontend.handleResumeUpdate prev p).experience =
        match p.experience with | some v => v | none => prev.experience) ∧
    ((Frontend.handleResumeUpdate prev p).skills =
        match p.skills with | some v => v | none => prev.skills) ∧
    ((Frontend.handleResumeUpdate prev p).education =
        match p.education with | some v => v | none => prev.education) ∧
    ((Frontend.handleProfileUpdate prevP q).id =
        match q.id with | some v => v | none => prevP.id) ∧
    ((Frontend.handleProfileUpdate prevP q).name =
        match q.name with | some v => v | none => prevP.name) ∧
    ((Frontend.handleProfileUpdate prevP q).title =
        match q.title with | some v => v | none => prevP.title) ∧
    ((Frontend.handleProfileUpdate prevP q).email =
        match q.email with | some v => v | none => prevP.email) ∧
    ((Frontend.handleProfileUpdate prevP q).phone =
        match q.phone with | some v => v | none => prevP.phone) ∧
    ((Frontend.handleProfileUpdate prevP q).location =
        match q.location with | some v => v | none => prevP.location) ∧
    ((Frontend.handleProfileUpdate prevP q).linkedin =
        match q.linkedin with | some v => v | none => prevP.linkedin) ∧
    ((Frontend.handleProfileUpdate prevP q).website =
        match q.website with | some v => v | none => prevP.website) ∧
    ((Frontend.handleProfileUpdate prevP q).avatar =
        match q.avatar with | some v => v | none => prevP.avatar) ∧
    ((Frontend.handleProfileUpdate prevP q).bio =
        match q.bio with | some v => v | none => prevP.bio) ∧
    ((Frontend.handleProfileUpdate prevP q).preferences =
        match q.preferences with | some v => v | none => prevP.preferences) ∧
    ((Frontend.handleProfileUpdate prevP q).subscription =
        match q.subscription with | some v => v | none => prevP.subscription) ∧
    ((Frontend.handleProfileUpdate prevP q).stats =
        match q.stats with | some v => v | none => prevP.stats) := by
  refine ⟨rfl, rfl, ?_, ?_, ?_, ?_, ?_, ?_, ?_, ?_, ?_, ?_, ?_, ?_, ?_, ?_, ?_, ?_, ?_, ?_⟩ <;>
    simp [Frontend.handleResumeUpdate, Frontend.handleProfileUpdate, Option.getD] <;>
    first
      | (cases p.personalInfo <;> rfl)
      | (cases p.summary <;> rfl)
      | (cases p.experience <;> rfl)
      | (cases p.skills <;> rfl)
      | (cases p.education <;> rfl)
      | (cases q.id <;> rfl)
      | (cases q.name <;> rfl)
      | (cases q.title <;> rfl)
      | (cases q.email <;> rfl)
      | (cases q.phone <;> rfl)
      | (cases q.location <;> rfl)
      | (cases q.linkedin <;> rfl)
      | (cases q.website <;> rfl)
      | (cases q.avatar <;> rfl)
      | (cases q.bio <;> rfl)
      | (cases q.preferences <;> rfl)
      | (cases q.subscription <;> rfl)
      | (cases q.stats <;> rfl)

/-! Helper lemmas about the document-store model. -/

theorem getSkills_setSkills (d : Store.Document) (cat : Store.SkillCategory)
    (l : List String) (v : Nat) :
    Store.getSkills { Store.setSkills d cat l with version := v } cat = l := by
  cases cat <;> rfl

/-- C1: with a correct `expectedVersion` and a valid mutating operation,
`applyMutation` succeeds, the new document's version is exactly
`expectedVersion + 1`, and exactly one `EditRecord` with
`versionBefore = expectedVersion` and `versionAfter = versionBefore + 1` is
appended to the ledger — in the same state transition as the document
update, so neither is ever observable without the other. -/
theorem applyMutation_success_increments_version
    (st : Store.DocStore) (d d1 : Store.Document) (op : Store.Operation)
    (actor : String) (now : Nat)
    (hdoc : st.doc = some d) (hvalid : Store.applyOp d op = some d1) :
    ∃ (st' : Store.DocStore) (nd : Store.Document) (r : Store.EditRecord),
      Store.applyMutation st d.version op actor now = (st', .ok (nd, r)) ∧
      nd.version = d.version + 1 ∧
      st'.doc = some nd ∧
      st'.ledger = st.ledger ++ [r] ∧
      r.versionBefore = d.version ∧
      r.versionAfter = r.versionBefore + 1 := by
  refine ⟨{ doc := some { d1 with version := d.version + 1 },
            ledger := st.ledger ++
              [{ versionBefore := d.version, versionAfter := d.version + 1,
                 operation := Store.opName op, actor := actor, timestamp := now }] },
          { d1 with version := d.version + 1 },
          { versionBefore := d.version, versionAfter := d.version + 1,
            operation := Store.opName op, actor := actor, timestamp := now },
          ?_, rfl, rfl, rfl, rfl, rfl⟩
  unfold Store.applyMutation
  rw [hdoc]
  simp [hvalid]

/-- Witness for C1: a summary replacement on a concrete version-3 document
reaches version 4 with exactly one matching ledger entry. -/
theorem applyMutation_success_increments_version_witness :
    ∃ (st' : Store.DocStore) (nd : Store.Document) (r : Store.EditRecord),
      Store.applyMutation sampleStore 3 (.replaceSummary "New summary.") "user" 9
        = (st', .ok (nd, r)) ∧
      nd.version = 3 + 1 ∧
      st'.doc = some nd ∧
      st'.ledger = sampleStore.ledger ++ [r] ∧
      r.versionBefore = 3 ∧
      r.versionAfter = r.versionBefore + 1 :=
  applyMutation_success_increments_version sampleStore sampleDoc
    { sampleDoc with summary := "New summary." } (.replaceSummary "New summary.")
    "user" 9 rfl (by decide)

/-- C2: a mutating call whose `expectedVersion` differs from the stored
document version returns `VersionConflict` and leaves the store — the
document, its version and the EditRecord ledger — exactly as it was. -/
theorem applyMutation_stale_version_conflict
    (st : Store.DocStore) (d : Store.Document) (expectedVersion : Nat)
    (op : Store.Operation) (actor : String) (now : Nat)
    (hdoc : st.doc = some d) (hne : expectedVersion ≠ d.version) :
    Store.applyMutation st expectedVersion op actor now
      = (st, .error .VersionConflict) := by
  unfold Store.applyMutation
  rw [hdoc]
  simp [hne]

/-- Witness for C2 at a concrete stale version. -/
theorem applyMutation_stale_version_conflict_witness :
    Store.applyMutation sampleStore 2 (.replaceSummary "x") "user" 0
      = (sampleStore, .error .VersionConflict) :=
  applyMutation_stale_version_conflict sampleStore sampleDoc 2
    (.replaceSummary "x") "user" 0 rfl (by decide)

/-- C3: adding a skill whose normalized name matches an existing entry of
the same category case-insensitively is rejected, so a first add followed
by a case-variant second add leaves exactly one matching skill entry:
the first add appends the one entry, the second returns `ValidationError`
and changes nothing. -/
theorem skillsAdd_case_insensitive_idempotent
    (st : Store.DocStore) (d : Store.Document) (cat : Store.SkillCategory)
    (n1 n2 actor : String) (now : Nat)
    (hdoc : st.doc = some d)
    (hfresh : Store.countMatching (Store.getSkills d cat) n1 = 0)
    (hn1 : Store.normalizeSkill n1 ≠ "")
    (hn2 : Store.normalizeSkill n2 ≠ "")
    (heq : Store.lowerStr (Store.normalizeSkill n1)
            = Store.lowerStr (Store.normalizeSkill n2)) :
    ∃ d1 : Store.Document,
      (Store.applyMutation st d.version (.skillsAdd cat n1) actor now).1.doc = some d1 ∧
      Store.countMatching (Store.getSkills d1 cat) n1 = 1 ∧
      Store.countMatching (Store.getSkills d1 cat) n2 = 1 ∧
      Store.applyMutation
          (Store.applyMutation st d.version (.skillsAdd cat n1) actor now).1
          d1.version (.skillsAdd cat n2) actor now
        = ((Store.applyMutation st d.version (.skillsAdd cat n1) actor now).1,
           .error .ValidationError) := by
  have hfresh' : (Store.getSkills d cat).countP
      (fun x => Store.lowerStr x == Store.lowerStr (Store.normalizeSkill n1)) = 0 := hfresh
  have hany1 : ((Store.getSkills d cat).any
      (fun x => Store.lowerStr x == Store.lowerStr (Store.normalizeSkill n1))) = false := by
    rw [List.any_eq_false]
    intro x hx
    have h0 := List.countP_eq_zero.mp hfresh' x hx
    simpa using h0
  have happly1 : Store.applyOp d (.skillsAdd cat n1)
      = some (Store.setSkills d cat
          (Store.getSkills d cat ++ [Store.normalizeSkill n1])) := by
    simp [Store.applyOp, hn1, hany1]
  have hmut1 : Store.applyMutation st d.version (.skillsAdd cat n1) actor now =
      ({ doc := some { Store.setSkills d cat
            (Store.getSkills d cat ++ [Store.normalizeSkill n1]) with
              version := d.version + 1 },
         ledger := st.ledger ++
           [{ versionBefore := d.version, versionAfter := d.version + 1,
              operation := Store.opName (.skillsAdd cat n1), actor := actor,
              timestamp := now }] },
       .ok ({ Store.setSkills d cat
            (Store.getSkills d cat ++ [Store.normalizeSkill n1]) with
              version := d.version + 1 },
            { versionBefore := d.version, versionAfter := d.version + 1,
              operation := Store.opName (.skillsAdd cat n1), actor := actor,
              timestamp := now })) := by
    unfold Store.applyMutation
    rw [hdoc]
    simp [happly1]
  refine ⟨{ Store.setSkills d cat
      (Store.getSkills d cat ++ [Store.normalizeSkill n1]) with
        version := d.version + 1 }, ?_, ?_, ?_, ?_⟩
  · rw [hmut1]
  · have hcount : Store.countMatching
        (Store.getSkills d cat ++ [Store.normalizeSkill n1]) n1 = 1 := by
      unfold Store.countMatching
      rw [List.countP_append, hfresh']
      simp
    simpa [getSkills_setSkills] using hcount
  · have hcount : Store.countMatching
        (Store.getSkills d cat ++ [Store.normalizeSkill n1]) n2 = 1 := by
      unfold Store.countMatching
      rw [← heq, List.countP_append, hfresh']
      simp
    simpa [getSkills_setSkills] using hcount
  · have hany2 : ((Store.getSkills { Store.setSkills d cat
        (Store.getSkills d cat ++ [Store.normalizeSkill n1]) with
          version := d.version + 1 } cat).any
        (fun x => Store.lowerStr x == Store.lowerStr (Store.normalizeSkill n2))) = true := by
      rw [getSkills_setSkills, List.any_append]
      simp [heq]
    have happly2 : Store.applyOp { Store.setSkills d cat
        (Store.getSkills d cat ++ [Store.normalizeSkill n1]) with
          version := d.version + 1 } (.skillsAdd cat n2) = none := by
      simp [Store.applyOp, hn2, hany2]
    rw [hmut1]
    simp [Store.applyMutation, happly2]

/-- Witness for C3: adding `"Python"` then `"python"` to the technical
skills of a fresh document leaves exactly one matching skill entry, the
second add being rejected with `ValidationError`. -/
theorem skillsAdd_case_insensitive_idempotent_witness :
    ∃ d1 : Store.Document,
      (Store.applyMutation emptySkillsStore 0
          (.skillsAdd .technical "Python") "agent" 1).1.doc = some d1 ∧
      Store.countMatching (Store.getSkills d1 .technical) "Python" = 1 ∧
      Store.countMatching (Store.getSkills d1 .technical) "python" = 1 ∧
      Store.applyMutation
          (Store.applyMutation emptySkillsStore 0
            (.skillsAdd .technical "Python") "agent" 1).1
          d1.version (.skillsAdd .technical "python") "agent" 1
        = ((Store.applyMutation emptySkillsStore 0
              (.skillsAdd .technical "Python") "agent" 1).1,
           .error .ValidationError) :=
  skillsAdd_case_insensitive_idempotent emptySkillsStore emptySkillsDoc .technical
    "Python" "python" "agent" 1 rfl (by decide) (by decide) (by decide) (by decide)

/-- C4: for a session whose stored message count exceeds the compaction
threshold, the assembled context contains at most the configured
recent-window count of raw messages and at most one synthetic summary
message, and assembly returns the stored message log untouched. -/
theorem assembleContext_bounded
    (cfg : Store.CompactionConfig) (preambleText outlineText : String)
    (msgs : List Store.StoredMessage)
    (hlen : cfg.threshold < msgs.length) :
    (Store.assembleContext cfg preambleText outlineText msgs).countP Store.isRaw
        ≤ cfg.window ∧
    (Store.assembleContext cfg preambleText outlineText msgs).countP Store.isSummary
        ≤ 1 ∧
    (Store.assembleTurnContext cfg preambleText outlineText msgs).2 = msgs := by
  refine ⟨?_, ?_, rfl⟩
  · unfold Store.assembleContext
    rw [if_pos hlen, List.countP_append]
    have h1 : List.countP Store.isRaw
        [Store.CtxItem.preamble preambleText, Store.CtxItem.outline outlineText,
         Store.CtxItem.summary
           (Store.summarize (msgs.take (msgs.length - cfg.window)))] = 0 := by
      simp [List.countP_cons, Store.isRaw]
    have h2 : List.countP Store.isRaw
        ((msgs.drop (msgs.length - cfg.window)).map Store.CtxItem.raw)
        ≤ cfg.window := by
      have hle := List.countP_le_length (p := Store.isRaw)
        (l := (msgs.drop (msgs.length - cfg.window)).map Store.CtxItem.raw)
      rw [List.length_map, List.length_drop] at hle
      omega
    omega
  · unfold Store.assembleContext
    rw [if_pos hlen, List.countP_append]
    have h1 : List.countP Store.isSummary
        [Store.CtxItem.preamble preambleText, Store.CtxItem.outline outlineText,
         Store.CtxItem.summary
           (Store.summarize (msgs.take (msgs.length - cfg.window)))] = 1 := by
      simp [List.countP_cons, Store.isSummary]
    have h2 : List.countP Store.isSummary
        ((msgs.drop (msgs.length - cfg.window)).map Store.CtxItem.raw) = 0 := by
      rw [List.countP_eq_zero]
      intro a ha
      obtain ⟨m, hm, rfl⟩ := List.mem_map.mp ha
      simp [Store.isSummary]
    omega

/-- Witness for C4: four stored messages against threshold 2, window 2. -/
theorem assembleContext_bounded_witness :
    (Store.assembleContext ⟨2, 2⟩ "preamble" "outline" sampleMsgs).countP Store.isRaw
        ≤ 2 ∧
    (Store.assembleContext ⟨2, 2⟩ "preamble" "outline" sampleMsgs).countP Store.isSummary
        ≤ 1 ∧
    (Store.assembleTurnContext ⟨2, 2⟩ "preamble" "outline" sampleMsgs).2 = sampleMsgs :=
  assembleContext_bounded ⟨2, 2⟩ "preamble" "outline" sampleMsgs (by decide)
